import Mathlib

/-!
Verification of `demo/virtual_weather_station.py` (pywot).

The embedding models the `WeatherStation` object state and its
`get_weather_data` coroutine as a step function over an explicit
fetch-outcome alphabet.  Parsed JSON documents are modelled as
`Snapshot` (a possibly-missing `current_observation` mapping with
possibly-missing numeric fields), exceptions as explicit result
constructors (`keyError` for an uncaught `KeyError` during the
property-projection assignments, `cancelled` for a propagated
`asyncio.CancelledError`).
-/

/-- The inner `current_observation` mapping of a parsed weather document.
Each field is `Option` because a parsed JSON object may lack the key
(`KeyError` on access in Python). -/
structure Observation where
  temp_f : Option Int
  pressure_in : Option Int
  wind_mph : Option Int
  deriving Repr, DecidableEq

/-- A parsed weather document (`weather_data` / `fallback_weather_data`).
`current_observation = none` models a mapping without the
`current_observation` key, in particular the empty dict `\x7b\x7d`. -/
structure Snapshot where
  current_observation : Option Observation
  deriving Repr, DecidableEq

/-- The empty mapping `\x7b\x7d` that `self.weather_data` holds after
`__init__`. -/
def emptySnapshot : Snapshot := ⟨none⟩

/-- A fully-populated document with the three observation fields. -/
def mkSnap (t p w : Int) : Snapshot :=
  ⟨some ⟨some t, some p, some w⟩⟩

/-- The zero-filled snapshot assigned to `self.fallback_weather_data`
in `__init__`. -/
def initFallback : Snapshot := mkSnap 0 0 0

/-- The mutable state of a `WeatherStation` instance: the two snapshot
slots, the three exposed property values, the per-property metadata
(unit string and description, fixed by the `wot_property` declarations),
and a count of `logging.critical` records emitted. -/
structure StationState where
  fallback_weather_data : Snapshot
  weather_data : Snapshot
  temperature : Int
  barometric_pressure : Int
  wind_speed : Int
  temperature_units : String
  temperature_description : String
  barometric_pressure_units : String
  barometric_pressure_description : String
  wind_speed_units : String
  wind_speed_description : String
  critical_log_count : Nat
  deriving Repr, DecidableEq

/-- The state after `WeatherStation.__init__`: `fallback_weather_data`
is the zero-filled snapshot, `weather_data` is the empty mapping, and
the three `wot_property` declarations give initial values 0, 30, 30
with their fixed units and descriptions. -/
def initialState : StationState where
  fallback_weather_data := initFallback
  weather_data := emptySnapshot
  temperature := 0
  barometric_pressure := 30
  wind_speed := 30
  temperature_units := "℉"
  temperature_description := "the temperature in ℉"
  barometric_pressure_units := "in"
  barometric_pressure_description := "the air pressure in inches"
  wind_speed_units := "mph"
  wind_speed_description := "the wind speed in mph"
  critical_log_count := 0

/-- One call's fetch outcome, decided by the environment (network,
parser, scheduler).  "Before"/"DuringBody" records where the exception
is raised relative to the two suspension points inside the `try` block:
`session.get(...)` (response not yet obtained, the rotation assignment
`self.fallback_weather_data = self.weather_data` has NOT executed) and
`response.text()` (response obtained, the rotation HAS executed). -/
inductive FetchOutcome where
  /-- response obtained, body read, `json.loads` succeeds with `doc` -/
  | success (doc : Snapshot)
  /-- `aiohttp` transport error raised at/before `session.get` -/
  | transportErrorBefore
  /-- transport error raised while reading `response.text()` -/
  | transportErrorDuringBody
  /-- `seconds_for_timeout` exceeded before the response is obtained -/
  | timeoutBefore
  /-- `seconds_for_timeout` exceeded while reading `response.text()` -/
  | timeoutDuringBody
  /-- body read, but `json.loads` raises (malformed document) -/
  | malformedBody
  /-- `asyncio.CancelledError` delivered before the response is obtained -/
  | cancelledBefore
  /-- `asyncio.CancelledError` delivered while reading `response.text()` -/
  | cancelledDuringBody
  deriving Repr, DecidableEq

/-- Ordinary failures: everything `except Exception` catches, i.e. all
non-success outcomes other than cooperative cancellation. -/
def FetchOutcome.isOrdinaryFailure : FetchOutcome → Bool
  | .transportErrorBefore => true
  | .transportErrorDuringBody => true
  | .timeoutBefore => true
  | .timeoutDuringBody => true
  | .malformedBody => true
  | _ => false

/-- Whether the HTTP response was obtained in this outcome, i.e. whether
control reached the rotation assignment inside the innermost `async with`. -/
def FetchOutcome.reachedResponse : FetchOutcome → Bool
  | .success _ => true
  | .transportErrorDuringBody => true
  | .timeoutDuringBody => true
  | .malformedBody => true
  | .cancelledDuringBody => true
  | _ => false

/-- Result of one `get_weather_data` call: normal completion, an
uncaught `KeyError` escaping the property-projection assignments, or a
propagated `asyncio.CancelledError`.  Each constructor carries the
object state at the moment the call returns/raises. -/
inductive CallResult where
  | ok (s : StationState)
  | keyError (s : StationState)
  | cancelled (s : StationState)
  deriving Repr, DecidableEq

/-- The state carried by a `CallResult` (the object's attributes persist
across the raised exception). -/
def CallResult.state : CallResult → StationState
  | .ok s => s
  | .keyError s => s
  | .cancelled s => s

/-- Whether the call raised `KeyError` to its caller. -/
def CallResult.raisesKeyError : CallResult → Bool
  | .keyError _ => true
  | _ => false

/-- Whether the call propagated `asyncio.CancelledError`. -/
def CallResult.isCancelled : CallResult → Bool
  | .cancelled _ => true
  | _ => false

/-- The three property-projection assignments after the `try` block:

    self.temperature = self.weather_data['current_observation']['temp_f']
    self.barometric_pressure = self.weather_data['current_observation']['pressure_in']
    self.wind_speed = self.weather_data['current_observation']['wind_mph']

Each line first evaluates the subscripting (raising `KeyError` if a key
is absent, leaving earlier assignments in place) and then assigns. -/
def project (s : StationState) : CallResult :=
  match s.weather_data.current_observation with
  | none => .keyError s
  | some obs =>
    match obs.temp_f with
    | none => .keyError s
    | some t =>
      let s1 := { s with temperature := t }
      match obs.pressure_in with
      | none => .keyError s1
      | some p =>
        let s2 := { s1 with barometric_pressure := p }
        match obs.wind_mph with
        | none => .keyError s2
        | some w => .ok { s2 with wind_speed := w }

/-- The `try`/`except` block of `get_weather_data`.  On the success
path the rotation `self.fallback_weather_data = self.weather_data`
executes right after the response is obtained, then
`self.weather_data = json.loads(await response.text())`.  An exception
raised before the response skips the rotation; one raised during the
body read or at `json.loads` happens after it.  `except CancelledError`
re-raises; `except Exception` logs one critical record and assigns
`self.weather_data = self.fallback_weather_data`. -/
def tryBlock (s : StationState) (o : FetchOutcome) : CallResult :=
  match o with
  | .success doc =>
      .ok { s with fallback_weather_data := s.weather_data, weather_data := doc }
  | .transportErrorBefore =>
      .ok { s with weather_data := s.fallback_weather_data,
                   critical_log_count := s.critical_log_count + 1 }
  | .timeoutBefore =>
      .ok { s with weather_data := s.fallback_weather_data,
                   critical_log_count := s.critical_log_count + 1 }
  | .transportErrorDuringBody =>
      let s1 := { s with fallback_weather_data := s.weather_data }
      .ok { s1 with weather_data := s1.fallback_weather_data,
                    critical_log_count := s1.critical_log_count + 1 }
  | .timeoutDuringBody =>
      let s1 := { s with fallback_weather_data := s.weather_data }
      .ok { s1 with weather_data := s1.fallback_weather_data,
                    critical_log_count := s1.critical_log_count + 1 }
  | .malformedBody =>
      let s1 := { s with fallback_weather_data := s.weather_data }
      .ok { s1 with weather_data := s1.fallback_weather_data,
                    critical_log_count := s1.critical_log_count + 1 }
  | .cancelledBefore => .cancelled s
  | .cancelledDuringBody =>
      .cancelled { s with fallback_weather_data := s.weather_data }

/-- One full call to `WeatherStation.get_weather_data` on state `s`
under fetch outcome `o`: the `try`/`except` block followed (when no
exception propagated) by the three projection assignments. -/
def get_weather_data (s : StationState) (o : FetchOutcome) : CallResult :=
  match tryBlock s o with
  | .ok s1 => project s1
  | .keyError s1 => .keyError s1
  | .cancelled s1 => .cancelled s1

/-- The object state after one call, whatever the call's result
(exceptions do not roll attributes back). -/
def step (s : StationState) (o : FetchOutcome) : StationState :=
  (get_weather_data s o).state

/-- The list of states after each call in a run of repeated calls. -/
def statesAfter (s : StationState) : List FetchOutcome → List StationState
  | [] => []
  | o :: os =>
    let s1 := step s o
    s1 :: statesAfter s1 os

/-- The triple of exposed property values. -/
def props (s : StationState) : Int × Int × Int :=
  (s.temperature, s.barometric_pressure, s.wind_speed)

/-- Left brace character, written by code point to keep it out of
string literals. -/
def lbrace : Char := Char.ofNat 123

/-- Right brace character. -/
def rbrace : Char := Char.ofNat 125

/-- Python `str.format` restricted to empty positional placeholders:
each occurrence of the two-character placeholder is replaced by the
next argument in order.  (With fewer arguments than placeholders Python
raises; the template below never hits that case.) -/
def formatBraces : List Char → List String → List Char
  | [], _ => []
  | c1 :: c2 :: rest, a :: args =>
      if c1 = lbrace ∧ c2 = rbrace then a.toList ++ formatBraces rest args
      else c1 :: formatBraces (c2 :: rest) (a :: args)
  | c :: rest, args => c :: formatBraces rest args

/-- The format template of `create_url` (braces escaped as `\x7b\x7d`). -/
def weatherTemplate : String :=
  "http://api.wunderground.com/api/\x7b\x7d/conditions/q/\x7b\x7d/\x7b\x7d.json"

/-- `create_url(config, ...)`: formats the template with the API key,
state code and city name taken from configuration, in that order. -/
def create_url (weather_underground_api_key state_code city_name : String) : String :=
  String.mk (formatBraces weatherTemplate.toList
    [weather_underground_api_key, state_code, city_name])

/-- Metadata equality between two states: the unit string and
description of each of the three properties agree. -/
def sameMetadata (a b : StationState) : Prop :=
  a.temperature_units = b.temperature_units ∧
  a.temperature_description = b.temperature_description ∧
  a.barometric_pressure_units = b.barometric_pressure_units ∧
  a.barometric_pressure_description = b.barometric_pressure_description ∧
  a.wind_speed_units = b.wind_speed_units ∧
  a.wind_speed_description = b.wind_speed_description

/-- The projection assignments only touch the three property values:
the snapshot slots, the critical-log count and all metadata are
unchanged, whether or not a `KeyError` is raised. -/
theorem project_state_frame (s : StationState) :
    (project s).state.fallback_weather_data = s.fallback_weather_data ∧
    (project s).state.weather_data = s.weather_data ∧
    (project s).state.critical_log_count = s.critical_log_count ∧
    sameMetadata (project s).state s := by
  unfold project
  rcases h : s.weather_data.current_observation with _ | obs
  · simp [CallResult.state, sameMetadata]
  · rcases obs with ⟨_ | t, _ | p, _ | w⟩ <;>
      simp [CallResult.state, sameMetadata]

/-- A reachable state with distinct snapshots in the two slots: the
state after the outcome sequence `success (1,1,1); success (2,2,2)`
from a fresh station, holding `fallback = (1,1,1)`, `current = (2,2,2)`. -/
def s0 : StationState :=
  step (step initialState (.success (mkSnap 1 1 1))) (.success (mkSnap 2 2 2))

/-- The state after one successful fetch of the document (70, 29, 5)
from a fresh station. -/
def afterA : StationState := step initialState (.success (mkSnap 70 29 5))

/-- A successfully parsed document whose `current_observation` mapping
has `temp_f` but lacks `pressure_in` and `wind_mph`. -/
def missingFieldDoc : Snapshot := ⟨some ⟨some 75, none, none⟩⟩

/-- Claim C1: fallback correctness across cycles.  For every run of
repeated calls whose fetch outcomes are `[success A, failure, failure,
success B]` (with `A`, `B` fully-populated documents and the failures
any ordinary failures), the exposed property values after each cycle
are those of `A`, `A`, `A`, `B`; after each failed cycle the properties
are exactly as after the previous successful cycle, and the pre-`A`
defaults never reappear. -/
theorem fallback_correctness_across_cycles (ta pa wa tb pb wb : Int)
    (f1 f2 : FetchOutcome)
    (h1 : f1.isOrdinaryFailure = true) (h2 : f2.isOrdinaryFailure = true) :
    (statesAfter initialState
      [.success (mkSnap ta pa wa), f1, f2, .success (mkSnap tb pb wb)]).map props =
      [(ta, pa, wa), (ta, pa, wa), (ta, pa, wa), (tb, pb, wb)] := by
  cases f1 <;> cases f2 <;>
    simp_all [FetchOutcome.isOrdinaryFailure, statesAfter, step, get_weather_data,
      tryBlock, project, CallResult.state, props, mkSnap, initialState,
      emptySnapshot, initFallback]

/-- Witness for C1 at concrete documents (70,29,5), (60,31,9) with a
transport failure and a parse failure in between. -/
theorem fallback_correctness_across_cycles_witness :
    FetchOutcome.isOrdinaryFailure .transportErrorBefore = true ∧
    FetchOutcome.isOrdinaryFailure .malformedBody = true ∧
    (statesAfter initialState
      [.success (mkSnap 70 29 5), .transportErrorBefore, .malformedBody,
        .success (mkSnap 60 31 9)]).map props =
      [(70, 29, 5), (70, 29, 5), (70, 29, 5), (60, 31, 9)] :=
  ⟨rfl, rfl,
    fallback_correctness_across_cycles 70 29 5 60 31 9
      .transportErrorBefore .malformedBody rfl rfl⟩

/-- Claim C2 counterexample: the rotation does NOT happen before the
network attempt.  From the reachable state `s0` (fallback (1,1,1),
current (2,2,2)), a transport error raised before the response leaves
`fallback_weather_data` unrotated: it does not hold the pre-call
`weather_data` value, refuting "this rotation happens before the
network attempt is made". -/
theorem rotation_before_attempt_counterexample :
    FetchOutcome.isOrdinaryFailure .transportErrorBefore = true ∧
    (step s0 .transportErrorBefore).fallback_weather_data ≠ s0.weather_data := by
  decide

/-- Claim C2 amended: the fallback slot is overwritten only with the
value the current slot held immediately before the call, but the
rotation executes only once the HTTP response has been obtained (after
the network attempt produces a response, before the body is parsed); in
calls that fail or are cancelled before a response, no rotation occurs
and the fallback slot is unchanged. -/
theorem rotation_after_response_obtained (s : StationState) (o : FetchOutcome) :
    (step s o).fallback_weather_data =
      (if o.reachedResponse then s.weather_data else s.fallback_weather_data) := by
  have hp := fun t => (project_state_frame t).1
  cases o <;>
    simp_all [step, get_weather_data, tryBlock, CallResult.state,
      FetchOutcome.reachedResponse]

/-- Claim C3 (code bug): an ordinary failure — the very first call's
body failing to parse (`json.loads` raises) — makes `get_weather_data`
raise an uncaught `KeyError` to its caller, because the restored
`weather_data` is the empty mapping from `__init__` and the projection
assignments sit outside the `try` block.  This contradicts the
never-raises guarantee. -/
theorem ordinary_failure_raises_keyerror :
    FetchOutcome.isOrdinaryFailure .malformedBody = true ∧
    (get_weather_data initialState .malformedBody).raisesKeyError = true := by
  decide

/-- Claim C4 counterexample: when the very first call fails with a
transport error before the response, the properties do NOT retain the
declared startup defaults (0, 30, 30): the projection runs on the
zero-filled fallback snapshot and sets them to (0, 0, 0). -/
theorem first_cycle_failure_default_counterexample :
    FetchOutcome.isOrdinaryFailure .transportErrorBefore = true ∧
    props (step initialState .transportErrorBefore) ≠ (0, 30, 30) := by
  decide

/-- Claim C4 amended: if the very first call fails before the response
is obtained (transport error or timeout), the call completes normally
and all three properties take the zero-filled fallback snapshot's
values (0, 0, 0) — `barometric_pressure` and `wind_speed` lose their
declared defaults of 30; if it fails after the response is obtained
(body-read error or parse failure), the call raises `KeyError` and the
properties keep the startup defaults (0, 30, 30). -/
theorem first_cycle_failure_amended :
    ((get_weather_data initialState .transportErrorBefore).raisesKeyError = false ∧
      props (step initialState .transportErrorBefore) = (0, 0, 0)) ∧
    ((get_weather_data initialState .timeoutBefore).raisesKeyError = false ∧
      props (step initialState .timeoutBefore) = (0, 0, 0)) ∧
    ((get_weather_data initialState .transportErrorDuringBody).raisesKeyError = true ∧
      props (step initialState .transportErrorDuringBody) = (0, 30, 30)) ∧
    ((get_weather_data initialState .timeoutDuringBody).raisesKeyError = true ∧
      props (step initialState .timeoutDuringBody) = (0, 30, 30)) ∧
    ((get_weather_data initialState .malformedBody).raisesKeyError = true ∧
      props (step initialState .malformedBody) = (0, 30, 30)) := by
  decide

/-- Claim C5 (code bug): a successfully fetched and parsed document
with `temp_f` = 75 but no `pressure_in`/`wind_mph`, arriving after a
successful cycle with (70, 29, 5), makes the call raise `KeyError`
while leaving a PARTIALLY updated property set — temperature becomes 75
but pressure and wind keep the stale 29 and 5 — and emits zero critical
log records, not exactly one. -/
theorem schema_mismatch_partial_update :
    (get_weather_data afterA (.success missingFieldDoc)).raisesKeyError = true ∧
    props afterA = (70, 29, 5) ∧
    props (get_weather_data afterA (.success missingFieldDoc)).state = (75, 29, 5) ∧
    (get_weather_data afterA (.success missingFieldDoc)).state.critical_log_count =
      afterA.critical_log_count := by
  decide

/-- Claim C6 counterexample: a cancellation delivered while reading the
response body is observed AFTER the rotation assignment, so the
fallback slot has been overwritten — refuting "no fallback rotation
occurs" for cancellation at every suspension point. -/
theorem cancellation_rotation_counterexample :
    (get_weather_data s0 .cancelledDuringBody).isCancelled = true ∧
    (get_weather_data s0 .cancelledDuringBody).state.fallback_weather_data ≠
      s0.fallback_weather_data := by
  decide

/-- Claim C6 amended: a cooperative cancellation always propagates as
the distinct `cancelled` outcome with no property mutation and no
fallback substitution of `weather_data`; cancellation before the
response leaves the state completely untouched, while cancellation
during the body read happens after the rotation, so only
`fallback_weather_data` has been overwritten with the pre-call
`weather_data`. -/
theorem cancellation_purity_amended (s : StationState) :
    get_weather_data s .cancelledBefore = .cancelled s ∧
    get_weather_data s .cancelledDuringBody =
      .cancelled { s with fallback_weather_data := s.weather_data } :=
  ⟨rfl, rfl⟩

/-- Claim C7: timeout/transport equivalence.  From any prior state, a
call that fails by exceeding `seconds_for_timeout` produces exactly the
same result (object state, property values, log count, raised
exception) as a call that fails with a transport error at the same
point, both before the response and during the body read. -/
theorem timeout_transport_equivalence (s : StationState) :
    get_weather_data s .timeoutBefore = get_weather_data s .transportErrorBefore ∧
    get_weather_data s .timeoutDuringBody = get_weather_data s .transportErrorDuringBody :=
  ⟨rfl, rfl⟩

/-- Claim C8: whenever the first call reaches the rotation assignment
(the response is obtained), `fallback_weather_data` becomes the empty
mapping that `weather_data` held at construction — not the zero-filled
default snapshot — and if the next cycle fails before another rotation,
the restored `weather_data` has no `current_observation` key. -/
theorem first_rotation_empty_fallback (o : FetchOutcome)
    (h : o.reachedResponse = true) :
    (step initialState o).fallback_weather_data = emptySnapshot ∧
    emptySnapshot ≠ initFallback ∧
    (step (step initialState o) .transportErrorBefore).weather_data.current_observation =
      none := by
  have hfb := fun t => (project_state_frame t).1
  have hwd := fun t => (project_state_frame t).2.1
  cases o <;>
    simp_all [step, get_weather_data, tryBlock, CallResult.state,
      FetchOutcome.reachedResponse, emptySnapshot, initFallback, mkSnap, initialState]

/-- Witness for C8 at the concrete outcome `malformedBody` (the body is
read, so the rotation assignment was reached). -/
theorem first_rotation_empty_fallback_witness :
    FetchOutcome.reachedResponse .malformedBody = true ∧
    ((step initialState .malformedBody).fallback_weather_data = emptySnapshot ∧
      emptySnapshot ≠ initFallback ∧
      (step (step initialState .malformedBody)
        .transportErrorBefore).weather_data.current_observation = none) :=
  ⟨rfl, first_rotation_empty_fallback .malformedBody rfl⟩

/-- Claim C9: `create_url` is a pure function of the three
configuration strings — identical inputs give an identical string —
and the result is the fixed template with the API-key segment, then the
state segment, then the city segment, in that order. -/
theorem create_url_deterministic_fixed_template (k s c : String) :
    create_url k s c = create_url k s c ∧
    create_url k s c =
      "http://api.wunderground.com/api/" ++
        (k ++ ("/conditions/q/" ++ (s ++ ("/" ++ (c ++ ".json"))))) :=
  ⟨rfl, rfl⟩

/-- Claim C10: metadata stability.  For every state and every fetch
outcome, one call to `get_weather_data` leaves each property's unit
string and description unchanged; only the numeric values can change. -/
theorem metadata_stability (s : StationState) (o : FetchOutcome) :
    sameMetadata (step s o) s := by
  have hp := fun t => (project_state_frame t).2.2.2
  cases o <;>
    simp_all [step, get_weather_data, tryBlock, CallResult.state, sameMetadata]
